import Mathlib

/-!
# Verification of the Neo-Kun chat widget (src/index.tsx)

Shallow embedding of the chat-session core of the portfolio site:
the `NeoKunChat` component's `handleSendMessage`, `handleFeedback`
and `callOpenRouter` functions (src/index.tsx, lines 1419-1453 and
1588-1647).

Modelling decisions, each traceable to the source:
* A transcript entry mirrors the TS shape
  `{role: 'user' | 'model', text: string, feedback?: 'up' | 'down'}`.
* Component state mirrors the React `useState` cells read or written by
  `handleSendMessage`: `messages`, `input`, `isTyping`, `chatClient`
  (modelled as the Bool "a client instance exists"), `isBackupActive`.
* The outside world is an environment record: whether `process.env.API_KEY`
  is set, whether `ai.chats.create` succeeds, and the outcome of each
  provider call.  A provider outcome is `Option (Option String)`:
  `none` = the promise rejected (network error, non-2xx, thrown), and
  `some t` = it resolved, where `t = none` models an absent text field
  (`result.text` undefined, or missing `choices[0].message.content`),
  which the source replaces by `""` via `|| ""`.
* Besides the final state, the embedding returns the outcome (which early
  return / branch the source took) and the ordered list of observable
  events: transcript appends and provider calls, in program order, so that
  "appended before any provider call" and "Primary is never invoked" are
  statable.
* The system prompt is configuration the spec treats as an uninterpreted
  string; only its identity matters, so it is embedded as a token constant.
-/

namespace NeoKun

/-- Roles `'user' | 'model'` — the transcript role vocabulary of the source. -/
inductive Role where
  | user
  | model
deriving DecidableEq, Repr

/-- Feedback values `'up' | 'down'`. -/
inductive Feedback where
  | up
  | down
deriving DecidableEq, Repr

/-- A transcript entry: `{role, text, feedback?}`. -/
structure Message where
  role : Role
  text : String
  feedback : Option Feedback := none
deriving DecidableEq, Repr

/-- One entry of the OpenRouter request body's `messages` array:
`{role: string, content: string}`. -/
structure ORMessage where
  role : String
  content : String
deriving DecidableEq, Repr

/-- JS `String.prototype.trim` (used by the source as `input.trim()`):
strip leading and trailing whitespace.  Embedded over the character list
so that concrete instances are kernel-computable. -/
def jsTrim (s : String) : String :=
  ⟨((s.data.dropWhile Char.isWhitespace).reverse.dropWhile Char.isWhitespace).reverse⟩

/-- The fixed persona/system instruction (`NEO_KUN_SYSTEM_PROMPT`,
src/index.tsx).  The spec treats its content as an uninterpreted
configuration string, so it is embedded as an identifying token. -/
def NEO_KUN_SYSTEM_PROMPT : String := "NEO_KUN_SYSTEM_PROMPT"

/-- Synthetic message appended when `process.env.API_KEY` is absent
(src/index.tsx line 1599). -/
def apiKeyMissingText : String := "Error: API Key missing. Please check configuration."

/-- Synthetic message appended when the Backup call also fails
(src/index.tsx line 1642). -/
def bothFailedText : String := "System glitch. Both primary and backup lines are unstable."

/-- The React state cells of `NeoKunChat` that `handleSendMessage` and
`handleFeedback` read or write.  `chatClient` is `true` iff a live Primary
client instance exists (`chatClient !== null`). -/
structure ChatState where
  messages : List Message
  input : String
  isTyping : Bool := false
  chatClient : Bool := false
  isBackupActive : Bool := false
deriving DecidableEq, Repr

/-- External-world outcomes for one `handleSendMessage` invocation.
A provider field of `none` means that call would reject; `some t` means it
resolves with optional text `t` (`t = none` models an undefined/missing
text field in the response). -/
structure Env where
  apiKeyPresent : Bool
  createSucceeds : Bool
  primaryResult : Option (Option String)
  backupResult : Option (Option String)
deriving DecidableEq, Repr

/-- Which exit path `handleSendMessage` took. -/
inductive SendOutcome where
  | noOp
  | missingKey
  | primarySuccess (text : String)
  | backupSuccess (text : String)
  | bothFailed
deriving DecidableEq, Repr

/-- Observable actions of one send, in program order. -/
inductive Event where
  | appendUser (text : String)
  | callPrimary (message : String)
  | callBackup (request : List ORMessage)
  | appendModel (text : String)
deriving DecidableEq, Repr

/-- Request `messages` array built by `callOpenRouter`
(src/index.tsx lines 1431-1437): the system instruction as a separate
leading entry, then the supplied history with `'model'` translated to
`"assistant"` and every other role to `"user"`. -/
def openRouterMessages (history : List Message) : List ORMessage :=
  ⟨"system", NEO_KUN_SYSTEM_PROMPT⟩ ::
    history.map (fun m =>
      ⟨if m.role = Role.model then "assistant" else "user", m.text⟩)

/-- The Backup (OpenRouter) leg of `handleSendMessage`
(src/index.tsx lines 1635-1643): set `isBackupActive`, call OpenRouter with
the full history, append the reply on success or the synthetic
double-failure message on rejection.  The `finally` clause's
`setIsTyping(false)` is folded into each exit. -/
def runBackup (s : ChatState) (history : List Message) (env : Env) :
    ChatState × SendOutcome × List Event :=
  let s' := { s with isBackupActive := true }
  let request := openRouterMessages history
  match env.backupResult with
  | some content =>
      let text := content.getD ""
      ({ s' with isTyping := false,
                 messages := s'.messages ++ [⟨Role.model, text, none⟩] },
       SendOutcome.backupSuccess text,
       [Event.callBackup request, Event.appendModel text])
  | none =>
      ({ s' with isTyping := false,
                 messages := s'.messages ++ [⟨Role.model, bothFailedText, none⟩] },
       SendOutcome.bothFailed,
       [Event.callBackup request, Event.appendModel bothFailedText])

/-- Shallow embedding of `handleSendMessage` (src/index.tsx lines
1594-1647), step by step:
1. `if (!input.trim()) return;`
2. `if (!process.env.API_KEY)` — append the key-missing message, return.
3. Capture `userMsg`, clear the input, append the user message, set
   `isTyping`; self-heal the client (`currentChat` exists iff a client
   already existed or construction succeeds).
4. If a client exists and backup is not active, await the Primary call:
   on resolve append `{role:'model', text: response || ""}`; on reject
   fall into the catch.
5. The catch (also reached by the `Force Backup` throw when no client
   exists or backup is already active) runs the Backup leg `runBackup`,
   with `history = [...messages, {role:'user', text: userMsg}]` (the
   handler's closure value of `messages` is the pre-send transcript).
6. `finally { setIsTyping(false) }` on every completing path. -/
def handleSendMessage (s : ChatState) (env : Env) :
    ChatState × SendOutcome × List Event :=
  if jsTrim s.input = "" then (s, SendOutcome.noOp, [])
  else if env.apiKeyPresent = false then
    ({ s with messages := s.messages ++ [⟨Role.model, apiKeyMissingText, none⟩] },
     SendOutcome.missingKey,
     [Event.appendModel apiKeyMissingText])
  else
    let userMsg := s.input
    let hasChat := s.chatClient || env.createSucceeds
    let s1 : ChatState :=
      { messages := s.messages ++ [⟨Role.user, userMsg, none⟩],
        input := "",
        isTyping := true,
        chatClient := hasChat,
        isBackupActive := s.isBackupActive }
    let history := s.messages ++ [⟨Role.user, userMsg, none⟩]
    if hasChat && !s.isBackupActive then
      match env.primaryResult with
      | some t =>
          let text := t.getD ""
          ({ s1 with isTyping := false,
                     messages := s1.messages ++ [⟨Role.model, text, none⟩] },
           SendOutcome.primarySuccess text,
           [Event.appendUser userMsg, Event.callPrimary userMsg,
            Event.appendModel text])
      | none =>
          let r := runBackup s1 history env
          (r.1, r.2.1, [Event.appendUser userMsg, Event.callPrimary userMsg] ++ r.2.2)
    else
      let r := runBackup s1 history env
      (r.1, r.2.1, [Event.appendUser userMsg] ++ r.2.2)

/-- Shallow embedding of `handleFeedback` (src/index.tsx lines 1588-1592):
map over the transcript; at the given index toggle the feedback field
(same value clears it, otherwise overwrite); other entries unchanged. -/
def handleFeedback (msgs : List Message) (index : Nat) (type : Feedback) :
    List Message :=
  msgs.mapIdx (fun i msg =>
    if i = index then
      { msg with feedback := if msg.feedback = some type then none else some type }
    else msg)

/-- Drive a sequence of sends: before each send the user types `text`
into the input box, then `handleSendMessage` runs to completion against
that turn's environment.  Returns the final state and the concatenated
event log. -/
def runSends (s : ChatState) (turns : List (String × Env)) :
    ChatState × List Event :=
  match turns with
  | [] => (s, [])
  | (text, env) :: rest =>
      let r := handleSendMessage { s with input := text } env
      let rest' := runSends r.1 rest
      (rest'.1, r.2.2 ++ rest'.2)

/-- Number of Primary provider invocations recorded in an event log. -/
def primaryCallCount (evs : List Event) : Nat :=
  (evs.filter (fun e => match e with
    | Event.callPrimary _ => true
    | _ => false)).length

/-- One transcript mutation of a pending send.  `handleSendMessage`
performs its appends through functional `setMessages(prev => [...prev, x])`
updates, each applying to the transcript as it stands when the update
runs. -/
inductive SendStep where
  | appendUserStep (text : String)
  | appendModelStep (text : String)
deriving DecidableEq, Repr

/-- Apply one pending transcript update. -/
def applyStep (msgs : List Message) : SendStep → List Message
  | SendStep.appendUserStep t => msgs ++ [⟨Role.user, t, none⟩]
  | SendStep.appendModelStep t => msgs ++ [⟨Role.model, t, none⟩]

/-- The transcript updates of one `handleSendMessage` invocation on the
successful-Primary path, at await granularity: the user append runs before
the `await currentChat.sendMessage(...)` suspension point, the assistant
append after it.  The source consults no guard (`isTyping` is never read
by `handleSendMessage`), so nothing prevents another invocation's updates
from running between the two. -/
def sendSteps (userText reply : String) : List SendStep :=
  [SendStep.appendUserStep userText, SendStep.appendModelStep reply]

/-- Run pending updates in order against a transcript. -/
def runSteps (msgs : List Message) (steps : List SendStep) : List Message :=
  steps.foldl applyStep msgs

/-- Interleave the remaining updates of two in-flight sends under an
event-loop schedule: `true` runs the next update of the first send,
`false` of the second; leftovers run in order. -/
def interleave : List Bool → List SendStep → List SendStep → List SendStep
  | [], a, b => a ++ b
  | true :: sch, a, b =>
      match a with
      | [] => b
      | x :: a' => x :: interleave sch a' b
  | false :: sch, a, b =>
      match b with
      | [] => a
      | y :: b' => y :: interleave sch a b'

theorem primaryCallCount_append (a b : List Event) :
    primaryCallCount (a ++ b) = primaryCallCount a + primaryCallCount b := by
  simp [primaryCallCount, List.filter_append]

/-- Once `isBackupActive` is set, a single further send leaves it set and
records no Primary invocation: the source's branch guard
`currentChat && !isBackupActive` is false, so the turn is forced onto the
Backup leg. -/
theorem sendMessage_backup_sticky (s : ChatState) (env : Env)
    (h : s.isBackupActive = true) :
    (handleSendMessage s env).1.isBackupActive = true ∧
    primaryCallCount (handleSendMessage s env).2.2 = 0 := by
  by_cases h1 : jsTrim s.input = ""
  · simp [handleSendMessage, h1, h, primaryCallCount]
  · by_cases hk : env.apiKeyPresent = false
    · simp [handleSendMessage, h1, hk, h, primaryCallCount]
    · cases hbr : env.backupResult <;>
        simp [handleSendMessage, runBackup, h1, hk, h, hbr, primaryCallCount]

/-- Lemma `sendMessage_backup_sticky` extended over any sequence of further
sends. -/
theorem runSends_backup_sticky (turns : List (String × Env)) (s : ChatState)
    (h : s.isBackupActive = true) :
    (runSends s turns).1.isBackupActive = true ∧
    primaryCallCount (runSends s turns).2 = 0 := by
  induction turns generalizing s with
  | nil => simpa [runSends, primaryCallCount]
  | cons t rest ih =>
      obtain ⟨text, env⟩ := t
      have h' : ({ s with input := text } : ChatState).isBackupActive = true := h
      have hm := sendMessage_backup_sticky { s with input := text } env h'
      have hrest := ih _ hm.1
      simp [runSends, primaryCallCount_append, hm.2, hrest.1, hrest.2]

/-- Each single send records at most one Primary invocation. -/
theorem sendMessage_primaryCallCount_le (s : ChatState) (env : Env) :
    primaryCallCount (handleSendMessage s env).2.2 ≤ 1 := by
  by_cases h1 : jsTrim s.input = ""
  · simp [handleSendMessage, h1, primaryCallCount]
  · by_cases hk : env.apiKeyPresent = false
    · simp [handleSendMessage, h1, hk, primaryCallCount]
    · cases hcb : (s.chatClient || env.createSucceeds) && !s.isBackupActive <;>
        cases hpr : env.primaryResult <;>
        cases hbr : env.backupResult <;>
        simp [handleSendMessage, runBackup, h1, hk, hcb, hpr, hbr, primaryCallCount]

/-- C9: a send whose input is blank after trimming changes nothing:
identical state, no transcript append, no provider call of any kind. -/
theorem C9_emptyInputNoOp (s : ChatState) (env : Env)
    (h : jsTrim s.input = "") :
    handleSendMessage s env = (s, SendOutcome.noOp, []) := by
  simp [handleSendMessage, h]

theorem C9_emptyInputNoOp_witness :
    jsTrim "   " = "" ∧
    handleSendMessage { messages := [], input := "   " }
        { apiKeyPresent := true, createSucceeds := true,
          primaryResult := some (some "pong"),
          backupResult := some (some "pong") } =
      ({ messages := [], input := "   " }, SendOutcome.noOp, []) :=
  ⟨by decide, C9_emptyInputNoOp _ _ (by decide)⟩

/-- C2: failover is sticky. (i) A turn whose Primary attempt rejects
leaves `isBackupActive` set; (ii) a turn with no Primary client instance
and failed construction sets it as well, without invoking Primary;
(iii) once set, any sequence of further sends keeps it set and records
zero Primary invocations; (iv) any single send invokes Primary at most
once, so Primary's total call count never exceeds the number of sends
issued before the failover. -/
theorem C2_stickyFailover :
    (∀ (s : ChatState) (env : Env), ¬ jsTrim s.input = "" →
      env.apiKeyPresent = true → env.primaryResult = none →
      (handleSendMessage s env).1.isBackupActive = true) ∧
    (∀ (s : ChatState) (env : Env), ¬ jsTrim s.input = "" →
      env.apiKeyPresent = true → (s.chatClient || env.createSucceeds) = false →
      (handleSendMessage s env).1.isBackupActive = true ∧
      primaryCallCount (handleSendMessage s env).2.2 = 0) ∧
    (∀ (s : ChatState) (turns : List (String × Env)), s.isBackupActive = true →
      (runSends s turns).1.isBackupActive = true ∧
      primaryCallCount (runSends s turns).2 = 0) ∧
    (∀ (s : ChatState) (env : Env),
      primaryCallCount (handleSendMessage s env).2.2 ≤ 1) := by
  refine ⟨?_, ?_, fun s turns h => runSends_backup_sticky turns s h,
          fun s env => sendMessage_primaryCallCount_le s env⟩
  · intro s env h1 hk hpr
    cases hcb : (s.chatClient || env.createSucceeds) && !s.isBackupActive <;>
      cases hbr : env.backupResult <;>
      simp [handleSendMessage, runBackup, h1, hk, hpr, hcb, hbr]
  · intro s env h1 hk hc
    cases hbr : env.backupResult <;>
      simp [handleSendMessage, runBackup, h1, hk, hc, hbr, primaryCallCount]

theorem C2_stickyFailover_witness :
    (¬ jsTrim "hi" = "") ∧
    (handleSendMessage { messages := [], input := "hi", chatClient := true }
        { apiKeyPresent := true, createSucceeds := true,
          primaryResult := none,
          backupResult := some (some "b") }).1.isBackupActive = true ∧
    ((runSends { messages := [], input := "", isBackupActive := true }
        [("x", { apiKeyPresent := true, createSucceeds := true,
                 primaryResult := some (some "a"),
                 backupResult := some (some "b") }),
         ("y", { apiKeyPresent := true, createSucceeds := true,
                 primaryResult := some (some "a"),
                 backupResult := some (some "b") })]).1.isBackupActive = true ∧
      primaryCallCount (runSends { messages := [], input := "", isBackupActive := true }
        [("x", { apiKeyPresent := true, createSucceeds := true,
                 primaryResult := some (some "a"),
                 backupResult := some (some "b") }),
         ("y", { apiKeyPresent := true, createSucceeds := true,
                 primaryResult := some (some "a"),
                 backupResult := some (some "b") })]).2 = 0) :=
  ⟨by decide,
   C2_stickyFailover.1 _ _ (by decide) rfl rfl,
   C2_stickyFailover.2.2.1 _ _ rfl⟩

/-- C6: with the Primary credential absent from process configuration, a
non-blank send makes no provider call of any kind; the early-return path
(the code's rendering of `ChatError.MissingCredential`) is surfaced as
`SendOutcome.missingKey`, and the fixed key-missing message is appended. -/
theorem C6_missingCredential (s : ChatState) (env : Env)
    (hne : ¬ jsTrim s.input = "") (hkey : env.apiKeyPresent = false) :
    (handleSendMessage s env).2.1 = SendOutcome.missingKey ∧
    primaryCallCount (handleSendMessage s env).2.2 = 0 ∧
    (∀ req, Event.callBackup req ∉ (handleSendMessage s env).2.2) ∧
    (handleSendMessage s env).1.messages =
      s.messages ++ [⟨Role.model, apiKeyMissingText, none⟩] := by
  simp [handleSendMessage, hne, hkey, primaryCallCount]

theorem C6_missingCredential_witness :
    (handleSendMessage { messages := [], input := "hello" }
        { apiKeyPresent := false, createSucceeds := true,
          primaryResult := some (some "x"),
          backupResult := some (some "y") }).2.1 = SendOutcome.missingKey ∧
    primaryCallCount (handleSendMessage { messages := [], input := "hello" }
        { apiKeyPresent := false, createSucceeds := true,
          primaryResult := some (some "x"),
          backupResult := some (some "y") }).2.2 = 0 ∧
    (∀ req, Event.callBackup req ∉
      (handleSendMessage { messages := [], input := "hello" }
        { apiKeyPresent := false, createSucceeds := true,
          primaryResult := some (some "x"),
          backupResult := some (some "y") }).2.2) ∧
    (handleSendMessage { messages := [], input := "hello" }
        { apiKeyPresent := false, createSucceeds := true,
          primaryResult := some (some "x"),
          backupResult := some (some "y") }).1.messages =
      [] ++ [⟨Role.model, apiKeyMissingText, none⟩] :=
  C6_missingCredential _ _ (by decide) rfl

/-- C10: a provider response that resolves without text is treated as a
success with empty assistant text. (i) Primary resolves with
`result.text` undefined: outcome `primarySuccess ""`, the transcript gains
the user message plus an empty assistant message, no failover is
triggered and Backup is not called. (ii) the Backup leg resolves with no
`choices[0].message.content`: outcome `backupSuccess ""`, same transcript
shape, no synthetic error message. -/
theorem C10_emptyResponseSuccess :
    (∀ (s : ChatState) (env : Env), ¬ jsTrim s.input = "" →
      env.apiKeyPresent = true →
      (s.chatClient || env.createSucceeds) = true → s.isBackupActive = false →
      env.primaryResult = some none →
      (handleSendMessage s env).2.1 = SendOutcome.primarySuccess "" ∧
      (handleSendMessage s env).1.messages =
        s.messages ++ [⟨Role.user, s.input, none⟩, ⟨Role.model, "", none⟩] ∧
      (handleSendMessage s env).1.isBackupActive = false ∧
      (∀ req, Event.callBackup req ∉ (handleSendMessage s env).2.2)) ∧
    (∀ (s : ChatState) (env : Env), ¬ jsTrim s.input = "" →
      env.apiKeyPresent = true → s.isBackupActive = true →
      env.backupResult = some none →
      (handleSendMessage s env).2.1 = SendOutcome.backupSuccess "" ∧
      (handleSendMessage s env).1.messages =
        s.messages ++ [⟨Role.user, s.input, none⟩, ⟨Role.model, "", none⟩]) := by
  constructor
  · intro s env h1 hk hc hb hpr
    simp [handleSendMessage, runBackup, h1, hk, hc, hb, hpr]
  · intro s env h1 hk hb hbr
    simp [handleSendMessage, runBackup, h1, hk, hb, hbr]

theorem C10_emptyResponseSuccess_witness :
    (handleSendMessage { messages := [], input := "q", chatClient := true }
        { apiKeyPresent := true, createSucceeds := true,
          primaryResult := some none,
          backupResult := some (some "b") }).2.1 = SendOutcome.primarySuccess "" ∧
    (handleSendMessage { messages := [], input := "q", chatClient := true }
        { apiKeyPresent := true, createSucceeds := true,
          primaryResult := some none,
          backupResult := some (some "b") }).1.messages =
      [] ++ [⟨Role.user, "q", none⟩, ⟨Role.model, "", none⟩] ∧
    (handleSendMessage { messages := [], input := "q", chatClient := true }
        { apiKeyPresent := true, createSucceeds := true,
          primaryResult := some none,
          backupResult := some (some "b") }).1.isBackupActive = false ∧
    (∀ req, Event.callBackup req ∉
      (handleSendMessage { messages := [], input := "q", chatClient := true }
        { apiKeyPresent := true, createSucceeds := true,
          primaryResult := some none,
          backupResult := some (some "b") }).2.2) :=
  C10_emptyResponseSuccess.1 _ _ (by decide) rfl rfl rfl rfl

/-- C1 as frozen fails on the source: `handleSendMessage` checks
`process.env.API_KEY` before appending anything, and with the key absent
it appends only the synthetic key-missing assistant message — the
non-blank user text "hello" never reaches the transcript. -/
theorem C1_counterexample :
    (¬ jsTrim "hello" = "") ∧
    (∀ m ∈ (handleSendMessage { messages := [], input := "hello" }
        { apiKeyPresent := false, createSucceeds := true,
          primaryResult := some (some "ok"),
          backupResult := some (some "ok") }).1.messages,
      ¬ m.role = Role.user) := by
  decide

/-- C1 amended (credential present): the very first event of the send is
the user-message append — so it precedes any provider call — the pre-send
transcript is preserved as a prefix, and the user message sits immediately
after it in the final transcript, for every provider outcome including
both providers failing. -/
theorem C1_appendBeforeCall (s : ChatState) (env : Env)
    (hne : ¬ jsTrim s.input = "") (hkey : env.apiKeyPresent = true) :
    (handleSendMessage s env).2.2.head? = some (Event.appendUser s.input) ∧
    (handleSendMessage s env).1.messages.take s.messages.length = s.messages ∧
    ((handleSendMessage s env).1.messages.drop s.messages.length).head? =
      some ⟨Role.user, s.input, none⟩ := by
  cases hcb : (s.chatClient || env.createSucceeds) && !s.isBackupActive <;>
    cases hpr : env.primaryResult <;>
    cases hbr : env.backupResult <;>
    simp [handleSendMessage, runBackup, hne, hkey, hcb, hpr, hbr,
          List.take_left, List.drop_left]

theorem C1_appendBeforeCall_witness :
    (handleSendMessage { messages := [], input := "hello", chatClient := true }
        { apiKeyPresent := true, createSucceeds := true,
          primaryResult := none, backupResult := none }).2.2.head? =
      some (Event.appendUser "hello") ∧
    (handleSendMessage { messages := [], input := "hello", chatClient := true }
        { apiKeyPresent := true, createSucceeds := true,
          primaryResult := none, backupResult := none }).1.messages.take 0 = [] ∧
    ((handleSendMessage { messages := [], input := "hello", chatClient := true }
        { apiKeyPresent := true, createSucceeds := true,
          primaryResult := none, backupResult := none }).1.messages.drop 0).head? =
      some ⟨Role.user, "hello", none⟩ :=
  C1_appendBeforeCall _ _ (by decide) rfl

/-- C3 as frozen fails on the source: the missing-credential path also
appends an Assistant message whose content is not model-generated (the
fixed key-missing text), yet it is not the double-failure path and no
provider is called on it. -/
theorem C3_counterexample :
    (¬ jsTrim "hi" = "") ∧
    ¬ (handleSendMessage { messages := [], input := "hi" }
        { apiKeyPresent := false, createSucceeds := true,
          primaryResult := some (some "ok"),
          backupResult := some (some "ok") }).2.1 = SendOutcome.bothFailed ∧
    (handleSendMessage { messages := [], input := "hi" }
        { apiKeyPresent := false, createSucceeds := true,
          primaryResult := some (some "ok"),
          backupResult := some (some "ok") }).1.messages =
      [⟨Role.model, apiKeyMissingText, none⟩] ∧
    primaryCallCount (handleSendMessage { messages := [], input := "hi" }
        { apiKeyPresent := false, createSucceeds := true,
          primaryResult := some (some "ok"),
          backupResult := some (some "ok") }).2.2 = 0 ∧
    (∀ req, Event.callBackup req ∉
      (handleSendMessage { messages := [], input := "hi" }
        { apiKeyPresent := false, createSucceeds := true,
          primaryResult := some (some "ok"),
          backupResult := some (some "ok") }).2.2) := by
  have he : (handleSendMessage { messages := [], input := "hi" }
      { apiKeyPresent := false, createSucceeds := true,
        primaryResult := some (some "ok"),
        backupResult := some (some "ok") }).2.2 =
      [Event.appendModel apiKeyMissingText] := by decide
  refine ⟨by decide, by decide, by decide, by decide, ?_⟩
  intro req h
  rw [he] at h
  simp at h

/-- C3 amended: (i) a turn whose Primary attempt rejects and whose Backup
call also rejects grows the transcript by exactly the user message and one
synthetic both-unavailable assistant message, and reports failure;
(ii) on every other path except the missing-credential one, each appended
assistant message carries text resolved by a provider (the empty string
standing in for an absent text field) — so the double-failure and
missing-credential paths are the only sources of synthetic assistant
content. -/
theorem C3_doubleFailure :
    (∀ (s : ChatState) (env : Env), ¬ jsTrim s.input = "" →
      env.apiKeyPresent = true →
      (s.chatClient || env.createSucceeds) = true → s.isBackupActive = false →
      env.primaryResult = none → env.backupResult = none →
      (handleSendMessage s env).1.messages =
        s.messages ++ [⟨Role.user, s.input, none⟩,
                       ⟨Role.model, bothFailedText, none⟩] ∧
      (handleSendMessage s env).2.1 = SendOutcome.bothFailed) ∧
    (∀ (s : ChatState) (env : Env),
      ¬ (handleSendMessage s env).2.1 = SendOutcome.bothFailed →
      ¬ (handleSendMessage s env).2.1 = SendOutcome.missingKey →
      ∀ m ∈ (handleSendMessage s env).1.messages.drop s.messages.length,
        m.role = Role.model →
        ∃ t, (env.primaryResult = some t ∨ env.backupResult = some t) ∧
          m.text = t.getD "") := by
  constructor
  · intro s env h1 hk hc hb hpr hbr
    simp [handleSendMessage, runBackup, h1, hk, hc, hb, hpr, hbr]
  · intro s env hnb hnm m hm hrole
    by_cases h1 : jsTrim s.input = ""
    · simp [handleSendMessage, h1, List.drop_length] at hm
    · by_cases hk : env.apiKeyPresent = false
      · simp [handleSendMessage, h1, hk] at hnm
      · cases hcb : (s.chatClient || env.createSucceeds) && !s.isBackupActive with
        | false =>
            cases hbr : env.backupResult with
            | none => simp [handleSendMessage, runBackup, h1, hk, hcb, hbr] at hnb
            | some c =>
                simp [handleSendMessage, runBackup, h1, hk, hcb, hbr,
                      List.drop_left] at hm
                rcases hm with hm | hm
                · rw [hm] at hrole; simp at hrole
                · exact ⟨c, Or.inr (by simp [hbr]), by rw [hm]⟩
        | true =>
            cases hpr : env.primaryResult with
            | none =>
                cases hbr : env.backupResult with
                | none =>
                    simp [handleSendMessage, runBackup, h1, hk, hcb, hpr, hbr] at hnb
                | some c =>
                    simp [handleSendMessage, runBackup, h1, hk, hcb, hpr, hbr,
                          List.drop_left] at hm
                    rcases hm with hm | hm
                    · rw [hm] at hrole; simp at hrole
                    · exact ⟨c, Or.inr (by simp [hbr]), by rw [hm]⟩
            | some t =>
                simp [handleSendMessage, h1, hk, hcb, hpr, List.drop_left] at hm
                rcases hm with hm | hm
                · rw [hm] at hrole; simp at hrole
                · exact ⟨t, Or.inl (by simp [hpr]), by rw [hm]⟩

theorem C3_doubleFailure_witness :
    (handleSendMessage { messages := [], input := "boom", chatClient := true }
        { apiKeyPresent := true, createSucceeds := true,
          primaryResult := none, backupResult := none }).1.messages =
      [] ++ [⟨Role.user, "boom", none⟩, ⟨Role.model, bothFailedText, none⟩] ∧
    (handleSendMessage { messages := [], input := "boom", chatClient := true }
        { apiKeyPresent := true, createSucceeds := true,
          primaryResult := none, backupResult := none }).2.1 =
      SendOutcome.bothFailed :=
  C3_doubleFailure.1 _ _ (by decide) rfl rfl rfl rfl rfl

/-- C5: every Backup invocation carries a request consisting of the fixed
system instruction as a separate leading entry, followed by the entire
pre-send transcript plus the just-appended user message, with role
`'model'` translated to `"assistant"` and `'user'` to `"user"`. -/
theorem C5_backupRequestShape (s : ChatState) (env : Env)
    (req : List ORMessage)
    (hmem : Event.callBackup req ∈ (handleSendMessage s env).2.2) :
    req = openRouterMessages (s.messages ++ [⟨Role.user, s.input, none⟩]) ∧
    req = (⟨"system", NEO_KUN_SYSTEM_PROMPT⟩ : ORMessage) ::
      List.map
        (fun m : Message =>
          (⟨if m.role = Role.model then "assistant" else "user",
            m.text⟩ : ORMessage))
        (s.messages ++ [⟨Role.user, s.input, none⟩]) := by
  have hreq : req = openRouterMessages (s.messages ++ [⟨Role.user, s.input, none⟩]) := by
    by_cases h1 : jsTrim s.input = ""
    · simp [handleSendMessage, h1] at hmem
    · by_cases hk : env.apiKeyPresent = false
      · simp [handleSendMessage, h1, hk] at hmem
      · cases hcb : (s.chatClient || env.createSucceeds) && !s.isBackupActive <;>
          cases hpr : env.primaryResult <;>
          cases hbr : env.backupResult <;>
          simpa [handleSendMessage, runBackup, h1, hk, hcb, hpr, hbr] using hmem
  exact ⟨hreq, by rw [hreq]; rfl⟩

theorem C5_backupRequestShape_witness :
    Event.callBackup
        [⟨"system", NEO_KUN_SYSTEM_PROMPT⟩, ⟨"assistant", "hi there"⟩,
         ⟨"user", "yo"⟩, ⟨"user", "question"⟩] ∈
      (handleSendMessage
        ({ messages := [⟨Role.model, "hi there", none⟩,
                        ⟨Role.user, "yo", some Feedback.up⟩],
           input := "question" } : ChatState)
        ({ apiKeyPresent := true, createSucceeds := false,
           primaryResult := some (some "unused"),
           backupResult := some (some "answer") } : Env)).2.2 ∧
    ([⟨"system", NEO_KUN_SYSTEM_PROMPT⟩, ⟨"assistant", "hi there"⟩,
      ⟨"user", "yo"⟩, ⟨"user", "question"⟩] : List ORMessage) =
      openRouterMessages
        ([⟨Role.model, "hi there", none⟩, ⟨Role.user, "yo", some Feedback.up⟩] ++
          [⟨Role.user, "question", none⟩]) := by
  refine ⟨by decide, ?_⟩
  exact (C5_backupRequestShape
    ({ messages := [⟨Role.model, "hi there", none⟩,
                    ⟨Role.user, "yo", some Feedback.up⟩],
       input := "question" } : ChatState)
    ({ apiKeyPresent := true, createSucceeds := false,
       primaryResult := some (some "unused"),
       backupResult := some (some "answer") } : Env)
    _ (by decide)).1

/-- Pointwise description of `handleFeedback`: entry `index` gets its
feedback toggled, every other entry is unchanged. -/
theorem handleFeedback_get? (msgs : List Message) (idx : Nat) (v : Feedback)
    (j : Nat) :
    (handleFeedback msgs idx v).get? j =
      (msgs.get? j).map (fun msg =>
        if j = idx then
          { msg with feedback := if msg.feedback = some v then none else some v }
        else msg) := by
  simp only [handleFeedback, List.mapIdx_eq_enum_map, List.get?_map,
             List.get?_enum, Option.map_map]
  cases msgs.get? j <;> simp [Function.uncurry]

/-- C7 as frozen fails on the source: `handleFeedback` maps over the
transcript with no range or role check.  An out-of-range index (5 on a
one-entry transcript) is a silent no-op with no error, and an in-range
index pointing at a User message has feedback applied to it. -/
theorem C7_counterexample :
    handleFeedback [⟨Role.user, "hi", none⟩] 5 Feedback.up =
      [⟨Role.user, "hi", none⟩] ∧
    handleFeedback [⟨Role.user, "hi", none⟩] 0 Feedback.up =
      [⟨Role.user, "hi", some Feedback.up⟩] := by
  decide

/-- C7 amended: an out-of-range index leaves the transcript unchanged (a
silent no-op — `handleFeedback` has no error channel at all), and an
in-range index has its feedback toggled regardless of the message's role,
with every other entry unchanged. -/
theorem C7_feedbackSemantics :
    (∀ (msgs : List Message) (i : Nat) (v : Feedback),
      msgs.length ≤ i → handleFeedback msgs i v = msgs) ∧
    (∀ (msgs : List Message) (i : Nat) (v : Feedback),
      i < msgs.length →
      (handleFeedback msgs i v).get? i =
        (msgs.get? i).map (fun msg =>
          { msg with feedback := if msg.feedback = some v then none
                                 else some v }) ∧
      ∀ j, ¬ j = i → (handleFeedback msgs i v).get? j = msgs.get? j) := by
  constructor
  · intro msgs i v hle
    apply List.ext
    intro j
    rw [handleFeedback_get?]
    cases hj : msgs.get? j with
    | none => rfl
    | some m =>
        have hjlt : j < msgs.length := List.get?_eq_some.mp hj |>.choose
        have hne : ¬ j = i := by omega
        simp [hne]
  · intro msgs i v _
    refine ⟨?_, ?_⟩
    · rw [handleFeedback_get?]
      simp
    · intro j hne
      rw [handleFeedback_get?]
      cases msgs.get? j <;> simp [hne]

theorem C7_feedbackSemantics_witness :
    handleFeedback [⟨Role.model, "a", none⟩] 7 Feedback.down =
      [⟨Role.model, "a", none⟩] ∧
    (handleFeedback [⟨Role.model, "a", none⟩] 0 Feedback.down).get? 0 =
      (([⟨Role.model, "a", none⟩] : List Message).get? 0).map (fun msg =>
        { msg with feedback := if msg.feedback = some Feedback.down then none
                               else some Feedback.down }) :=
  ⟨C7_feedbackSemantics.1 _ 7 _ (by decide),
   (C7_feedbackSemantics.2 [⟨Role.model, "a", none⟩] 0 Feedback.down (by decide)).1⟩

/-- C8 as frozen fails on the source: on a message whose feedback is
already `up` (reachable by one click), selecting `up` twice more leaves
the feedback at `up`, not cleared — the first application clears it and
the second sets it again. -/
theorem C8_counterexample :
    handleFeedback [⟨Role.model, "a", none⟩] 0 Feedback.up =
      [⟨Role.model, "a", some Feedback.up⟩] ∧
    ((handleFeedback
        (handleFeedback [⟨Role.model, "a", some Feedback.up⟩] 0 Feedback.up)
        0 Feedback.up).get? 0).map Message.feedback = some (some Feedback.up) := by
  decide

/-- C8 amended: for an in-range index whose message's feedback is not
already `v`, applying `setFeedback(i, v)` twice leaves the feedback
cleared; applying `up` then `down` leaves it at `down` from any starting
feedback (the other value overwrites). -/
theorem C8_feedbackToggle :
    (∀ (msgs : List Message) (i : Nat) (v : Feedback) (h : i < msgs.length),
      ¬ (msgs.get ⟨i, h⟩).feedback = some v →
      ((handleFeedback (handleFeedback msgs i v) i v).get? i).map
        Message.feedback = some none) ∧
    (∀ (msgs : List Message) (i : Nat) (h : i < msgs.length),
      ((handleFeedback (handleFeedback msgs i Feedback.up) i
          Feedback.down).get? i).map Message.feedback =
        some (some Feedback.down)) := by
  constructor
  · intro msgs i v h hne
    have hne' : ¬ msgs[i].feedback = some v := by
      simpa [List.get_eq_getElem] using hne
    rw [handleFeedback_get?, handleFeedback_get?, List.get?_eq_get h]
    simp [hne']
  · intro msgs i h
    rw [handleFeedback_get?, handleFeedback_get?, List.get?_eq_get h]
    by_cases hf : msgs[i].feedback = some Feedback.up <;> simp [hf]

theorem C8_feedbackToggle_witness :
    ((handleFeedback
        (handleFeedback [⟨Role.model, "a", none⟩] 0 Feedback.up)
        0 Feedback.up).get? 0).map Message.feedback = some none ∧
    ((handleFeedback
        (handleFeedback [⟨Role.model, "a", none⟩] 0 Feedback.up)
        0 Feedback.down).get? 0).map Message.feedback =
      some (some Feedback.down) :=
  ⟨C8_feedbackToggle.1 [⟨Role.model, "a", none⟩] 0 Feedback.up (by decide)
      (by decide),
   C8_feedbackToggle.2 [⟨Role.model, "a", none⟩] 0 (by decide)⟩

/-- The two-step decomposition matches `handleSendMessage` on the
successful-Primary path: running both updates sequentially yields exactly
that invocation's final transcript. -/
theorem sendSteps_models_handleSendMessage (msgs : List Message)
    (u reply : String) (hne : ¬ jsTrim u = "") :
    runSteps msgs (sendSteps u reply) =
      (handleSendMessage { messages := msgs, input := u, chatClient := true }
        { apiKeyPresent := true, createSucceeds := true,
          primaryResult := some (some reply),
          backupResult := some (some reply) }).1.messages := by
  simp [runSteps, sendSteps, applyStep, handleSendMessage, hne]

/-- C4: the core has no mutual-exclusion guard.  With `send("A")` in
flight (its user message appended, its provider call awaited) and
`send("B")` issued meanwhile, the schedule in which B's provider resolves
before A's yields the transcript `[user A, user B, model replyB,
model replyA]`: the entries of the two calls interleave, B was neither
rejected nor queued behind A, and the result differs from the
first-call-completes-first serialization. -/
theorem C4_interleaving :
    runSteps []
        (interleave [true, false, false, true]
          (sendSteps "A" "replyA") (sendSteps "B" "replyB")) =
      [⟨Role.user, "A", none⟩, ⟨Role.user, "B", none⟩,
       ⟨Role.model, "replyB", none⟩, ⟨Role.model, "replyA", none⟩] ∧
    ¬ runSteps []
        (interleave [true, false, false, true]
          (sendSteps "A" "replyA") (sendSteps "B" "replyB")) =
      runSteps (runSteps [] (sendSteps "A" "replyA")) (sendSteps "B" "replyB") := by
  decide

end NeoKun
